import Mathlib

/-!
Shallow embedding of the profile-management component of the ah-olympians
backend (authors/apps/profiles/views.py) and theorems settling the
specification claims about it.

The embedding models each HTTP handler as a pure function from a request
plus a system state to a response plus a new system state.  The system
state carries the profile table and, crucially, the mutable class
attribute APIException.status_code (default 500), which the handlers in
views.py assign before raising, so that the status attached to a raise
without a preceding assignment is whatever value was last stored there.

Parts of the repository that the handlers call but that are not under
src (the UserProfile model, the serializers, validate_avatar, the
permission layer of the web framework, and the authentication app view
behind /api/user/) are modelled from the specification; each such
definition carries a doc comment saying so.
-/

namespace Profiles

/-- HTTP status constants (rest_framework.status). -/
def HTTP_200_OK : Nat := 200

def HTTP_201_CREATED : Nat := 201

def HTTP_400_BAD_REQUEST : Nat := 400

def HTTP_403_FORBIDDEN : Nat := 403

def HTTP_404_NOT_FOUND : Nat := 404

/-- Default value of the APIException.status_code class attribute
(HTTP 500, server error) before any handler branch assigns to it. -/
def APIEXCEPTION_DEFAULT_STATUS : Nat := 500

/-- Modelled from the spec: the UserProfile model (one row per user,
one-to-one with User) is not under src.  The spec says a profile holds
avatar, bio and the active_profile boolean flag, keyed by the user
identifier; the serializer exposes the related username as a string.
Avatar is not needed by any claim and is represented only through the
outcome of validate_avatar (see the handler parameters below). -/
structure UserProfile where
  username_id : Int
  username : String
  bio : String
  active_profile : Bool
deriving DecidableEq, Repr

/-- Outcome of Django QuerySet.get(...): the unique matching row, or the
DoesNotExist exception, or the MultipleObjectsReturned exception. -/
inductive GetResult where
  | found (p : UserProfile)
  | doesNotExist
  | multipleObjectsReturned
deriving DecidableEq, Repr

/-- QuerySet.get(cond): exactly one match returns the row; zero matches
raise DoesNotExist; two or more raise MultipleObjectsReturned. -/
def dbGet (cond : UserProfile → Bool) (db : List UserProfile) : GetResult :=
  match db.filter cond with
  | [] => .doesNotExist
  | [p] => .found p
  | _ :: _ :: _ => .multipleObjectsReturned

/-- System state: the profile table plus the current value of the
APIException.status_code class attribute, shared by all handlers. -/
structure Sys where
  db : List UserProfile
  statusCode : Nat
deriving DecidableEq, Repr

/-- Response body shapes produced by the profile handlers. -/
inductive RespBody where
  | profile (p : UserProfile)
  | profilesMap (m : List (String × UserProfile))
  | userDetail (uid : Int)
deriving DecidableEq, Repr

/-- A handler outcome: a success with status and body, an APIException or
framework error rendered as a status plus a message envelope, or an
exception that no handler catches (a server fault). -/
inductive Resp where
  | ok (status : Nat) (body : RespBody)
  | err (status : Nat) (message : String)
  | fault
deriving DecidableEq, Repr

/-- Message the framework returns when credentials are absent, asserted
verbatim by the repository test test_retrieve_user_unauthenticated. -/
def authRequiredMsg : String := "Authentication credentials were not provided."

def deactivatedMsg : String := "You deactivated your profile. Please activate to continue"

def duplicateProfileMsg : String := "A user with this profile already exists"

def profileNotFoundCreateMsg : String := "User profile not found. Please create one"

def profileNotFoundMsg : String := "User profile not found"

def alreadyActiveMsg : String := "Your profile is already active and viewable by other users"

def idMustBeIntMsg : String := "User ID must be an integer"

def profileDoesNotExistMsg : String := "User profile does not exist"

def noProfilesMsg : String := "No user profiles found"

/-- Modelled from the spec: validate_avatar (custom_validations.py is not
under src) rejects a malformed avatar field with a validation error; the
spec only fixes its signature, so its message is nominal here. -/
def avatarInvalidMsg : String := "Avatar field format is invalid"

/-- Numeric value of a list of decimal digit characters. -/
def digitsVal (l : List Char) : Nat :=
  l.foldl (fun n c => 10 * n + (c.toNat - 48)) 0

/-- Models the Python int(s) conversion applied to the username_id URL
path segment: an optional sign followed by decimal digits parses, and
anything else raises ValueError (none here). -/
def pyIntParse (s : String) : Option Int :=
  match s.data with
  | [] => none
  | '-' :: rest =>
      if !rest.isEmpty && rest.all Char.isDigit then some (-(digitsVal rest : Int)) else none
  | '+' :: rest =>
      if !rest.isEmpty && rest.all Char.isDigit then some ((digitsVal rest : Int)) else none
  | l =>
      if l.all Char.isDigit then some ((digitsVal l : Int)) else none

/-- CreateProfileAPIView (views.py lines 23 to 49).  Permission class
IsAuthenticated: with no credentials the framework answers 403 before
the handler runs (enforcement modelled from the spec).  perform_create
then runs validate_avatar (its outcome is the avatarOk parameter),
raises a bare APIException with the reactivate message if the requester
owns an inactive profile (note: no assignment to the shared status code,
so the current value of Sys.statusCode is used), and otherwise saves;
the save raises IntegrityError when a profile for the user already
exists (the one-to-one uniqueness constraint, modelled from the spec),
which is translated to a 400 APIException after assigning 400 to the
shared status code.  A fresh profile starts ACTIVE (spec section 4.1). -/
def createProfile (user : Option Int) (uname : String) (avatarOk : Bool) (s : Sys) :
    Resp × Sys :=
  match user with
  | none => (.err HTTP_403_FORBIDDEN authRequiredMsg, s)
  | some uid =>
    if !avatarOk then
      (.err HTTP_400_BAD_REQUEST avatarInvalidMsg, s)
    else
      match dbGet (fun p => p.username_id == uid && !p.active_profile) s.db with
      | .found _ =>
          (.err s.statusCode deactivatedMsg, s)
      | .multipleObjectsReturned => (.fault, s)
      | .doesNotExist =>
          if s.db.any (fun p => p.username_id == uid) then
            (.err HTTP_400_BAD_REQUEST duplicateProfileMsg,
              { s with statusCode := HTTP_400_BAD_REQUEST })
          else
            let p : UserProfile :=
              { username_id := uid, username := uname, bio := "", active_profile := true }
            (.ok HTTP_201_CREATED (.profile p), { s with db := s.db ++ [p] })

/-- EditUserProfileAPIView, PUT branch (views.py lines 52 to 77).
get_object validates the avatar only when the field is present
(avatarProvided, with outcome avatarOk; both modelled from the spec
since custom_validations.py is not under src), then fetches the profile
of request.user.id, ignoring the username_id URL segment (urlId); a
missing profile assigns 404 to the shared status code and raises.  The
generic update then saves the validated data (serializer behaviour
modelled from the spec: it updates the mutable fields, represented here
by bio) and answers 200 with the updated profile.  There is no check of
active_profile anywhere in this handler. -/
def editProfile (user : Option Int) (urlId : String) (avatarProvided : Bool)
    (avatarOk : Bool) (newBio : String) (s : Sys) : Resp × Sys :=
  match user with
  | none => (.err HTTP_403_FORBIDDEN authRequiredMsg, s)
  | some uid =>
    if avatarProvided && !avatarOk then
      (.err HTTP_400_BAD_REQUEST avatarInvalidMsg, s)
    else
      match dbGet (fun p => p.username_id == uid) s.db with
      | .doesNotExist =>
          (.err HTTP_404_NOT_FOUND profileNotFoundCreateMsg,
            { s with statusCode := HTTP_404_NOT_FOUND })
      | .multipleObjectsReturned => (.fault, s)
      | .found p =>
          let p2 : UserProfile := { p with bio := newBio }
          (.ok HTTP_200_OK (.profile p2),
            { s with db := s.db.map (fun q => if q.username_id == uid then p2 else q) })

/-- DeactivateProfileAPIView (views.py lines 133 to 173).  get_object
fetches the profile of request.user.id (the urlId segment is ignored);
any failure of that get, DoesNotExist included, assigns 404 to the
shared status code and raises.  It then runs get_object_or_404 for an
inactive profile of the same user: a hit means the profile is already
deactivated, so 400 is assigned and the reactivate APIException raised;
MultipleObjectsReturned from that lookup is not caught by anything and
becomes a server fault.  update then saves active_profile=False through
DeactivateSerializer (serializer save modelled from the spec) and
answers 200 with the updated data. -/
def deactivateProfile (user : Option Int) (urlId : String) (s : Sys) : Resp × Sys :=
  match user with
  | none => (.err HTTP_403_FORBIDDEN authRequiredMsg, s)
  | some uid =>
    match dbGet (fun p => p.username_id == uid) s.db with
    | .doesNotExist =>
        (.err HTTP_404_NOT_FOUND profileNotFoundMsg,
          { s with statusCode := HTTP_404_NOT_FOUND })
    | .multipleObjectsReturned =>
        (.err HTTP_404_NOT_FOUND profileNotFoundMsg,
          { s with statusCode := HTTP_404_NOT_FOUND })
    | .found p =>
      match dbGet (fun q => q.username_id == uid && !q.active_profile) s.db with
      | .found _ =>
          (.err HTTP_400_BAD_REQUEST deactivatedMsg,
            { s with statusCode := HTTP_400_BAD_REQUEST })
      | .multipleObjectsReturned => (.fault, s)
      | .doesNotExist =>
          let p2 : UserProfile := { p with active_profile := false }
          (.ok HTTP_200_OK (.profile p2),
            { s with db := s.db.map (fun q => if q.username_id == uid then p2 else q) })

/-- ActivateProfileAPIView (views.py lines 176 to 217).  Symmetric to
deactivation: the guard lookup is for an ACTIVE profile of the
requester, a hit meaning the profile is already active (400), and the
update saves active_profile=True (serializer save modelled from the
spec) answering 200. -/
def activateProfile (user : Option Int) (urlId : String) (s : Sys) : Resp × Sys :=
  match user with
  | none => (.err HTTP_403_FORBIDDEN authRequiredMsg, s)
  | some uid =>
    match dbGet (fun p => p.username_id == uid) s.db with
    | .doesNotExist =>
        (.err HTTP_404_NOT_FOUND profileNotFoundMsg,
          { s with statusCode := HTTP_404_NOT_FOUND })
    | .multipleObjectsReturned =>
        (.err HTTP_404_NOT_FOUND profileNotFoundMsg,
          { s with statusCode := HTTP_404_NOT_FOUND })
    | .found p =>
      match dbGet (fun q => q.username_id == uid && q.active_profile) s.db with
      | .found _ =>
          (.err HTTP_400_BAD_REQUEST alreadyActiveMsg,
            { s with statusCode := HTTP_400_BAD_REQUEST })
      | .multipleObjectsReturned => (.fault, s)
      | .doesNotExist =>
          let p2 : UserProfile := { p with active_profile := true }
          (.ok HTTP_200_OK (.profile p2),
            { s with db := s.db.map (fun q => if q.username_id == uid then p2 else q) })

/-- ViewUserProfileAPIView (views.py lines 80 to 104), public read.
get_queryset converts the username_id URL segment with int() (a
ValueError answers 400), then requires some profile with that id and
active_profile=True to exist (any exception there, DoesNotExist or
MultipleObjectsReturned, answers 404), and returns the rows filtered by
id only.  The generic retrieve step then runs get_object_or_404 on that
filtered queryset: a unique row is returned with 200; zero rows surface
as the framework 404 page; several rows raise MultipleObjectsReturned,
which nothing catches. -/
def viewProfile (urlId : String) (s : Sys) : Resp × Sys :=
  match pyIntParse urlId with
  | none =>
      (.err HTTP_400_BAD_REQUEST idMustBeIntMsg,
        { s with statusCode := HTTP_400_BAD_REQUEST })
  | some n =>
    match dbGet (fun p => p.username_id == n && p.active_profile) s.db with
    | .doesNotExist =>
        (.err HTTP_404_NOT_FOUND profileDoesNotExistMsg,
          { s with statusCode := HTTP_404_NOT_FOUND })
    | .multipleObjectsReturned =>
        (.err HTTP_404_NOT_FOUND profileDoesNotExistMsg,
          { s with statusCode := HTTP_404_NOT_FOUND })
    | .found _ =>
      match dbGet (fun p => p.username_id == n) s.db with
      | .found p => (.ok HTTP_200_OK (.profile p), s)
      | .doesNotExist => (.err HTTP_404_NOT_FOUND "Not found.", s)
      | .multipleObjectsReturned => (.fault, s)

/-- One step of the Python dict comprehension: inserting a key that is
already present overwrites its value in place, a fresh key is appended. -/
def dictInsert (k : String) (v : UserProfile) (m : List (String × UserProfile)) :
    List (String × UserProfile) :=
  if m.any (fun kv => kv.1 == k) then
    m.map (fun kv => if kv.1 == k then (k, v) else kv)
  else m ++ [(k, v)]

/-- The dict comprehension of views.py line 128: a mapping from each
serialized username to the profile, built left to right. -/
def profilesDict (l : List UserProfile) : List (String × UserProfile) :=
  l.foldl (fun m p => dictInsert p.username p m) []

/-- ViewAllProfilesAPIView.list (views.py lines 107 to 129), public
read.  A probe get(active_profile=True) maps DoesNotExist to a 404
APIException (after assigning 404 to the shared status code) while
MultipleObjectsReturned is passed over; the success path serializes the
rows filtered to active_profile=True and wraps the username-keyed dict
under the profiles key. -/
def listProfiles (s : Sys) : Resp × Sys :=
  match dbGet (fun p => p.active_profile) s.db with
  | .doesNotExist =>
      (.err HTTP_404_NOT_FOUND noProfilesMsg,
        { s with statusCode := HTTP_404_NOT_FOUND })
  | _ =>
      (.ok HTTP_200_OK
        (.profilesMap (profilesDict (s.db.filter (fun p => p.active_profile)))), s)

/-- Modelled from the spec: the authentication app view behind
GET /api/user/ is not under src; its repository test asserts that an
unauthenticated request yields 403 with the authentication message, and
the spec says the endpoint returns the current user detail when
authenticated. -/
def retrieveCurrentUser (user : Option Int) (s : Sys) : Resp × Sys :=
  match user with
  | none => (.err HTTP_403_FORBIDDEN authRequiredMsg, s)
  | some uid => (.ok HTTP_200_OK (.userDetail uid), s)

end Profiles

namespace Profiles

/-! ### Helper lemmas about the queryset primitives -/

theorem dbGet_found_of_filter {cond : UserProfile → Bool} {db : List UserProfile}
    {p : UserProfile} (h : db.filter cond = [p]) : dbGet cond db = .found p := by
  simp [dbGet, h]

theorem dbGet_none_of_filter {cond : UserProfile → Bool} {db : List UserProfile}
    (h : db.filter cond = []) : dbGet cond db = .doesNotExist := by
  simp [dbGet, h]

theorem filter_and_eq (c1 c2 : UserProfile → Bool) (db : List UserProfile) :
    db.filter (fun q => c1 q && c2 q) = (db.filter c1).filter c2 := by
  induction db with
  | nil => rfl
  | cons a l ih =>
    by_cases h1 : c1 a <;> by_cases h2 : c2 a <;>
      simp [List.filter_cons, h1, h2, ih]

theorem any_of_filter_single {cond : UserProfile → Bool} {db : List UserProfile}
    {p : UserProfile} (h : db.filter cond = [p]) : db.any cond = true := by
  have hp : p ∈ db.filter cond := by rw [h]; exact List.mem_singleton_self p
  rcases List.mem_filter.mp hp with ⟨hmem, hc⟩
  exact List.any_eq_true.mpr ⟨p, hmem, hc⟩

theorem filter_map_update (cond : UserProfile → Bool) (f : UserProfile → UserProfile)
    (db : List UserProfile) (hc : ∀ q, cond (f q) = cond q) :
    (db.map f).filter cond = (db.filter cond).map f := by
  induction db with
  | nil => rfl
  | cons a l ih =>
    by_cases h : cond a <;> simp [List.filter_cons, h, hc a, ih]

theorem username_id_eq_of_filter_single {uid : Int} {db : List UserProfile}
    {p : UserProfile} (h : db.filter (fun q => q.username_id == uid) = [p]) :
    p.username_id = uid := by
  have hp : p ∈ db.filter (fun q => q.username_id == uid) := by
    rw [h]; exact List.mem_singleton_self p
  have := (List.mem_filter.mp hp).2
  exact eq_of_beq this

end Profiles

namespace Profiles

/-! ### Concrete fixtures used by counterexamples and witnesses -/

/-- User 1 with a deactivated profile. -/
def inactiveCaro : UserProfile :=
  { username_id := 1, username := "caro", bio := "old bio", active_profile := false }

/-- User 2 with an active profile. -/
def activeJames : UserProfile :=
  { username_id := 2, username := "james", bio := "bio", active_profile := true }

/-- Fresh system whose only profile is the deactivated one of user 1. -/
def sysInactive : Sys :=
  { db := [inactiveCaro], statusCode := APIEXCEPTION_DEFAULT_STATUS }

/-- Fresh system whose only profile is the active one of user 2. -/
def sysActive : Sys :=
  { db := [activeJames], statusCode := APIEXCEPTION_DEFAULT_STATUS }

/-! ### Claim C1 -/

/-- C1 counterexample: with the only profile of user 1 deactivated, an
authenticated edit request is not rejected with the reactivate error: it
answers 200 and changes the stored profile, contradicting the claim that
every mutation attempt other than activate is rejected and leaves the
profile unchanged while it is inactive. -/
theorem c1_counterexample :
    editProfile (some 1) "999" false true "new bio" sysInactive
      = (.ok HTTP_200_OK (.profile { inactiveCaro with bio := "new bio" }),
         { sysInactive with db := [{ inactiveCaro with bio := "new bio" }] })
    ∧ ({ inactiveCaro with bio := "new bio" } : UserProfile) ≠ inactiveCaro := by
  decide

/-- C1 (amended): while a user profile is deactivated, profile creation
and further deactivation are rejected with the reactivate-first domain
error (creation reuses whatever status the shared attribute holds) and
the profile table is unchanged; profile edit carries no such guard and
succeeds, so it is excluded from the amended claim. -/
theorem c1_inactive_rejects_create_and_deactivate
    (s : Sys) (uid : Int) (url uname : String) (p : UserProfile)
    (hfil : s.db.filter (fun q => q.username_id == uid) = [p])
    (hina : p.active_profile = false) :
    createProfile (some uid) uname true s = (.err s.statusCode deactivatedMsg, s)
    ∧ deactivateProfile (some uid) url s
        = (.err HTTP_400_BAD_REQUEST deactivatedMsg,
           { s with statusCode := HTTP_400_BAD_REQUEST }) := by
  have hand : s.db.filter (fun q => q.username_id == uid && !q.active_profile) = [p] := by
    rw [filter_and_eq, hfil]
    simp [List.filter_cons, hina]
  constructor
  · simp [createProfile, dbGet_found_of_filter hand]
  · simp [deactivateProfile, dbGet_found_of_filter hfil, dbGet_found_of_filter hand]

/-- C1 witness: the amended theorem at the concrete deactivated profile
of user 1 in a fresh system. -/
theorem c1_witness :
    createProfile (some 1) "caro" true sysInactive
        = (.err APIEXCEPTION_DEFAULT_STATUS deactivatedMsg, sysInactive)
    ∧ deactivateProfile (some 1) "1" sysInactive
        = (.err HTTP_400_BAD_REQUEST deactivatedMsg,
           { sysInactive with statusCode := HTTP_400_BAD_REQUEST }) := by
  have h := c1_inactive_rejects_create_and_deactivate sysInactive 1 "1" "caro"
      inactiveCaro (by decide) (by decide)
  exact ⟨h.1, h.2⟩

/-! ### Claim C2 -/

/-- C2: deactivating an already-inactive profile errors (400, reactivate
message) leaving the profile table unchanged, and activating an
already-active profile errors (400, already-active message) leaving the
profile table unchanged. -/
theorem c2_double_toggle_rejected
    (s : Sys) (uid : Int) (url : String) (p : UserProfile)
    (hfil : s.db.filter (fun q => q.username_id == uid) = [p]) :
    (p.active_profile = false →
      deactivateProfile (some uid) url s
        = (.err HTTP_400_BAD_REQUEST deactivatedMsg,
           { s with statusCode := HTTP_400_BAD_REQUEST }))
    ∧ (p.active_profile = true →
      activateProfile (some uid) url s
        = (.err HTTP_400_BAD_REQUEST alreadyActiveMsg,
           { s with statusCode := HTTP_400_BAD_REQUEST })) := by
  constructor
  · intro hina
    have hand : s.db.filter (fun q => q.username_id == uid && !q.active_profile) = [p] := by
      rw [filter_and_eq, hfil]
      simp [List.filter_cons, hina]
    simp [deactivateProfile, dbGet_found_of_filter hfil, dbGet_found_of_filter hand]
  · intro hact
    have hand : s.db.filter (fun q => q.username_id == uid && q.active_profile) = [p] := by
      rw [filter_and_eq, hfil]
      simp [List.filter_cons, hact]
    simp [activateProfile, dbGet_found_of_filter hfil, dbGet_found_of_filter hand]

/-- C2 witness: both rejections at concrete fresh systems. -/
theorem c2_witness :
    deactivateProfile (some 1) "1" sysInactive
      = (.err HTTP_400_BAD_REQUEST deactivatedMsg,
         { sysInactive with statusCode := HTTP_400_BAD_REQUEST })
    ∧ activateProfile (some 2) "2" sysActive
      = (.err HTTP_400_BAD_REQUEST alreadyActiveMsg,
         { sysActive with statusCode := HTTP_400_BAD_REQUEST }) :=
  ⟨(c2_double_toggle_rejected sysInactive 1 "1" inactiveCaro (by decide)).1 (by decide),
   (c2_double_toggle_rejected sysActive 2 "2" activeJames (by decide)).2 (by decide)⟩

end Profiles

namespace Profiles

/-- After the row of user uid is saved as p2 (which still belongs to
uid), the rows matching uid are exactly [p2]. -/
theorem filter_after_update (uid : Int) (db : List UserProfile) (p p2 : UserProfile)
    (hfil : db.filter (fun q => q.username_id == uid) = [p])
    (hid : p2.username_id = uid) :
    (db.map (fun q => if q.username_id == uid then p2 else q)).filter
        (fun q => q.username_id == uid) = [p2] := by
  have hc : ∀ q : UserProfile,
      (fun q : UserProfile => q.username_id == uid)
        ((fun q : UserProfile => if q.username_id == uid then p2 else q) q)
      = (fun q : UserProfile => q.username_id == uid) q := by
    intro q
    cases hq : (q.username_id == uid) <;> simp [hq, hid]
  rw [filter_map_update _ _ _ hc, hfil]
  simp [username_id_eq_of_filter_single hfil]

/-! ### Claim C3 -/

/-- C3: for a requester owning exactly one profile, deactivating an
active profile answers 200 with the profile stored as
active_profile=False, and activating an inactive profile answers 200
with the profile stored as active_profile=True; in each case the new
table is the old one with only the row of that user rewritten. -/
theorem c3_legal_transitions
    (s : Sys) (uid : Int) (url : String) (p : UserProfile)
    (hfil : s.db.filter (fun q => q.username_id == uid) = [p]) :
    (p.active_profile = true →
      deactivateProfile (some uid) url s
        = (.ok HTTP_200_OK (.profile { p with active_profile := false }),
           { s with db := s.db.map (fun q => if q.username_id == uid
                then { p with active_profile := false } else q) })
      ∧ (deactivateProfile (some uid) url s).2.db.filter
            (fun q => q.username_id == uid) = [{ p with active_profile := false }])
    ∧ (p.active_profile = false →
      activateProfile (some uid) url s
        = (.ok HTTP_200_OK (.profile { p with active_profile := true }),
           { s with db := s.db.map (fun q => if q.username_id == uid
                then { p with active_profile := true } else q) })
      ∧ (activateProfile (some uid) url s).2.db.filter
            (fun q => q.username_id == uid) = [{ p with active_profile := true }]) := by
  have hid := username_id_eq_of_filter_single hfil
  constructor
  · intro hact
    have hand : s.db.filter (fun q => q.username_id == uid && !q.active_profile) = [] := by
      rw [filter_and_eq, hfil]
      simp [List.filter_cons, hact]
    have hmain : deactivateProfile (some uid) url s
        = (.ok HTTP_200_OK (.profile { p with active_profile := false }),
           { s with db := s.db.map (fun q => if q.username_id == uid
                then { p with active_profile := false } else q) }) := by
      simp [deactivateProfile, dbGet_found_of_filter hfil, dbGet_none_of_filter hand]
    refine ⟨hmain, ?_⟩
    rw [hmain]
    exact filter_after_update uid s.db p _ hfil (by simp [hid])
  · intro hina
    have hand : s.db.filter (fun q => q.username_id == uid && q.active_profile) = [] := by
      rw [filter_and_eq, hfil]
      simp [List.filter_cons, hina]
    have hmain : activateProfile (some uid) url s
        = (.ok HTTP_200_OK (.profile { p with active_profile := true }),
           { s with db := s.db.map (fun q => if q.username_id == uid
                then { p with active_profile := true } else q) }) := by
      simp [activateProfile, dbGet_found_of_filter hfil, dbGet_none_of_filter hand]
    refine ⟨hmain, ?_⟩
    rw [hmain]
    exact filter_after_update uid s.db p _ hfil (by simp [hid])

/-- C3 witness: the two legal transitions at concrete systems. -/
theorem c3_witness :
    (deactivateProfile (some 2) "2" sysActive).1
        = .ok HTTP_200_OK (.profile { activeJames with active_profile := false })
    ∧ (activateProfile (some 1) "1" sysInactive).1
        = .ok HTTP_200_OK (.profile { inactiveCaro with active_profile := true }) := by
  have h1 := (c3_legal_transitions sysActive 2 "2" activeJames (by decide)).1 (by decide)
  have h2 := (c3_legal_transitions sysInactive 1 "1" inactiveCaro (by decide)).2 (by decide)
  rw [h1.1, h2.1]
  exact ⟨rfl, rfl⟩

end Profiles

namespace Profiles

/-! ### Claim C4 -/

/-- C4 counterexample: a second creation request by user 1, whose
existing profile is INACTIVE, in a fresh process (shared status
attribute still at its default 500) is answered by the reactivate-first
branch with status 500 and the reactivate message: neither a 400-class
status nor the conflict message, refuting the claim for profiles in an
arbitrary state. -/
theorem c4_counterexample :
    createProfile (some 1) "caro" true sysInactive
      = (.err APIEXCEPTION_DEFAULT_STATUS deactivatedMsg, sysInactive)
    ∧ ¬ (400 ≤ APIEXCEPTION_DEFAULT_STATUS ∧ APIEXCEPTION_DEFAULT_STATUS < 500)
    ∧ deactivatedMsg ≠ duplicateProfileMsg := by
  refine ⟨by decide, by decide, by decide⟩

/-- C4 (amended): a second creation request by a user whose existing
profile is ACTIVE hits the uniqueness violation of the store, which is
caught and translated to a 400 APIException with the conflict message;
a user whose existing profile is INACTIVE is instead rejected by the
reactivate-first guard before the store is touched, with the reactivate
message under the current value of the shared status attribute.  In
both cases the profile table is unchanged, so no duplicate row is
created. -/
theorem c4_duplicate_create_rejected
    (s : Sys) (uid : Int) (uname : String) (p : UserProfile)
    (hfil : s.db.filter (fun q => q.username_id == uid) = [p]) :
    (p.active_profile = true →
      createProfile (some uid) uname true s
        = (.err HTTP_400_BAD_REQUEST duplicateProfileMsg,
           { s with statusCode := HTTP_400_BAD_REQUEST }))
    ∧ (p.active_profile = false →
      createProfile (some uid) uname true s = (.err s.statusCode deactivatedMsg, s)) := by
  constructor
  · intro hact
    have hand : s.db.filter (fun q => q.username_id == uid && !q.active_profile) = [] := by
      rw [filter_and_eq, hfil]
      simp [List.filter_cons, hact]
    have hany := any_of_filter_single hfil
    simp [createProfile, dbGet_none_of_filter hand, hany]
  · intro hina
    have hand : s.db.filter (fun q => q.username_id == uid && !q.active_profile) = [p] := by
      rw [filter_and_eq, hfil]
      simp [List.filter_cons, hina]
    simp [createProfile, dbGet_found_of_filter hand]

/-- C4 witness: the amended theorem at user 2, whose only profile is
active, and at user 1, whose only profile is inactive. -/
theorem c4_witness :
    createProfile (some 2) "james" true sysActive
      = (.err HTTP_400_BAD_REQUEST duplicateProfileMsg,
         { sysActive with statusCode := HTTP_400_BAD_REQUEST })
    ∧ createProfile (some 1) "caro" true sysInactive
      = (.err APIEXCEPTION_DEFAULT_STATUS deactivatedMsg, sysInactive) :=
  ⟨(c4_duplicate_create_rejected sysActive 2 "james" activeJames (by decide)).1 (by decide),
   (c4_duplicate_create_rejected sysInactive 1 "caro" inactiveCaro (by decide)).2 (by decide)⟩

/-! ### Claim C9 -/

/-- System reached from sysInactive after an edit attempt by user 99,
who has no profile: that request fails and stores 404 in the shared
APIException.status_code attribute. -/
def sysAfter404 : Sys := (editProfile (some 99) "99" false true "x" sysInactive).2

/-- C9: the reactivate-first error of profile creation carries whatever
status the shared APIException.status_code attribute currently holds,
because that branch raises without assigning it.  In general the error
status equals Sys.statusCode; concretely, the identical request by user
1 is answered with 500 in a fresh process and with 404 after an
unrelated earlier request stored 404 in the attribute. -/
theorem c9_create_status_depends_on_history :
    (∀ (s : Sys) (uid : Int) (uname : String) (p : UserProfile),
      s.db.filter (fun q => q.username_id == uid && !q.active_profile) = [p] →
      createProfile (some uid) uname true s = (.err s.statusCode deactivatedMsg, s))
    ∧ (createProfile (some 1) "caro" true sysInactive).1
        = .err APIEXCEPTION_DEFAULT_STATUS deactivatedMsg
    ∧ sysAfter404.statusCode = HTTP_404_NOT_FOUND
    ∧ (createProfile (some 1) "caro" true sysAfter404).1
        = .err HTTP_404_NOT_FOUND deactivatedMsg := by
  refine ⟨?_, by decide, by decide, by decide⟩
  intro s uid uname p hand
  simp [createProfile, dbGet_found_of_filter hand]

/-- C9 witness: the general part of the theorem applied at the concrete
fresh system of user 1. -/
theorem c9_witness :
    createProfile (some 1) "caro" true sysInactive
      = (.err sysInactive.statusCode deactivatedMsg, sysInactive) :=
  c9_create_status_depends_on_history.1 sysInactive 1 "caro" inactiveCaro (by decide)

end Profiles

namespace Profiles

theorem filter_of_dbGet_found {cond : UserProfile → Bool} {db : List UserProfile}
    {p : UserProfile} (h : dbGet cond db = .found p) : db.filter cond = [p] := by
  rcases hf : db.filter cond with _ | ⟨a, _ | ⟨b, t⟩⟩
  · simp [dbGet, hf] at h
  · simp [dbGet, hf] at h
    rw [h]
  · simp [dbGet, hf] at h

/-! ### Claim C5 -/

/-- C5: single-profile retrieval is public and its failures are total: a
URL identifier that int() rejects answers 400 with the integer message;
a numeric identifier matched by no profile with active_profile=True
answers 404; and any successful response carries a profile with
active_profile=True, so an inactive profile is never returned. -/
theorem c5_view_profile_spec (s : Sys) (url : String) :
    (pyIntParse url = none →
      viewProfile url s
        = (.err HTTP_400_BAD_REQUEST idMustBeIntMsg,
           { s with statusCode := HTTP_400_BAD_REQUEST }))
    ∧ (∀ n : Int, pyIntParse url = some n →
        s.db.filter (fun p => p.username_id == n && p.active_profile) = [] →
        viewProfile url s
          = (.err HTTP_404_NOT_FOUND profileDoesNotExistMsg,
             { s with statusCode := HTTP_404_NOT_FOUND }))
    ∧ (∀ (st : Nat) (p : UserProfile) (s2 : Sys),
        viewProfile url s = (.ok st (.profile p), s2) → p.active_profile = true) := by
  refine ⟨?_, ?_, ?_⟩
  · intro h
    simp [viewProfile, h]
  · intro n h hnone
    simp [viewProfile, h, dbGet_none_of_filter hnone]
  · intro st p s2 h
    cases hp : pyIntParse url with
    | none => simp [viewProfile, hp] at h
    | some n =>
      cases hg1 : dbGet (fun q => q.username_id == n && q.active_profile) s.db with
      | doesNotExist => simp [viewProfile, hp, hg1] at h
      | multipleObjectsReturned => simp [viewProfile, hp, hg1] at h
      | found q =>
        cases hg2 : dbGet (fun q => q.username_id == n) s.db with
        | doesNotExist => simp [viewProfile, hp, hg1, hg2] at h
        | multipleObjectsReturned => simp [viewProfile, hp, hg1, hg2] at h
        | found p0 =>
          have h1 := filter_of_dbGet_found hg1
          have h2 := filter_of_dbGet_found hg2
          rw [filter_and_eq, h2] at h1
          have hval : viewProfile url s = (.ok HTTP_200_OK (.profile p0), s) := by
            simp [viewProfile, hp, hg1, hg2]
          rw [hval] at h
          rw [Prod.mk.injEq] at h
          have hb := h.1
          injection hb with hst hbody
          injection hbody with hp0
          by_cases ha : p0.active_profile = true
          · rw [← hp0]; exact ha
          · simp [List.filter_cons, ha] at h1

/-- C5 witness: the 400 branch on a non-numeric identifier and the 404
branch on an identifier matching no active profile. -/
theorem c5_witness :
    viewProfile "abc" sysActive
      = (.err HTTP_400_BAD_REQUEST idMustBeIntMsg,
         { sysActive with statusCode := HTTP_400_BAD_REQUEST })
    ∧ viewProfile "1" sysActive
      = (.err HTTP_404_NOT_FOUND profileDoesNotExistMsg,
         { sysActive with statusCode := HTTP_404_NOT_FOUND }) :=
  ⟨(c5_view_profile_spec sysActive "abc").1 (by decide),
   (c5_view_profile_spec sysActive "1").2.1 1 (by decide) (by decide)⟩

end Profiles

namespace Profiles

theorem filter_of_dbGet_none {cond : UserProfile → Bool} {db : List UserProfile}
    (h : dbGet cond db = .doesNotExist) : db.filter cond = [] := by
  rcases hf : db.filter cond with _ | ⟨a, _ | ⟨b, t⟩⟩
  · rfl
  · simp [dbGet, hf] at h
  · simp [dbGet, hf] at h

/-- When the usernames of the remaining rows are fresh for the
accumulator and mutually distinct, the dict comprehension only appends
and is the map to key-value pairs. -/
theorem foldl_dictInsert_fresh (l : List UserProfile) :
    ∀ acc : List (String × UserProfile),
    (∀ p ∈ l, ∀ kv ∈ acc, kv.1 ≠ p.username) →
    (l.map (fun p => p.username)).Nodup →
    l.foldl (fun m p => dictInsert p.username p m) acc
      = acc ++ l.map (fun p => (p.username, p)) := by
  induction l with
  | nil =>
    intro acc _ _
    simp
  | cons a t ih =>
    intro acc hdisj hnd
    rw [List.map_cons] at hnd
    rcases List.nodup_cons.mp hnd with ⟨hnotmem, hnd2⟩
    have hnotin : acc.any (fun kv => kv.1 == a.username) = false := by
      by_contra hc
      rw [Bool.not_eq_false, List.any_eq_true] at hc
      rcases hc with ⟨kv, hkv, heq⟩
      exact hdisj a (List.mem_cons_self a t) kv hkv (by simpa using heq)
    have hstep : dictInsert a.username a acc = acc ++ [(a.username, a)] := by
      simp [dictInsert, hnotin]
    have hdisj2 : ∀ p ∈ t, ∀ kv ∈ acc ++ [(a.username, a)], kv.1 ≠ p.username := by
      intro p hp kv hkv
      rcases List.mem_append.mp hkv with hin | hin
      · exact hdisj p (List.mem_cons_of_mem a hp) kv hin
      · have hkv2 : kv = (a.username, a) := by simpa using hin
        subst hkv2
        simp only [ne_eq]
        intro hEq
        apply hnotmem
        rw [hEq]
        exact List.mem_map_of_mem _ hp
    rw [List.foldl_cons, hstep, ih (acc ++ [(a.username, a)]) hdisj2 hnd2]
    simp

/-- With pairwise-distinct usernames (the uniqueness of the User
username field, modelled from the spec) the comprehension is exactly
the username-keyed listing of the rows. -/
theorem profilesDict_eq_map (l : List UserProfile)
    (hnd : (l.map (fun p => p.username)).Nodup) :
    profilesDict l = l.map (fun p => (p.username, p)) := by
  have h := foldl_dictInsert_fresh l [] (by intro p _ kv hkv; cases hkv) hnd
  simpa [profilesDict] using h

/-! ### Claim C6 -/

/-- C6: when at least one active profile exists (and usernames are
pairwise distinct, as the User model guarantees), listing answers 200
with the username-keyed mapping of exactly the rows whose
active_profile is true: a pair is in the mapping exactly when its
profile is stored, active, and keyed by its own username, so every
inactive profile is excluded. -/
theorem c6_list_keyed_by_username (s : Sys)
    (hne : s.db.filter (fun p => p.active_profile) ≠ [])
    (hnd : ((s.db.filter (fun p => p.active_profile)).map (fun p => p.username)).Nodup) :
    listProfiles s
      = (.ok HTTP_200_OK (.profilesMap
          ((s.db.filter (fun p => p.active_profile)).map (fun p => (p.username, p)))), s)
    ∧ ∀ (k : String) (p : UserProfile),
        (k, p) ∈ (s.db.filter (fun q => q.active_profile)).map (fun q => (q.username, q))
          ↔ (p ∈ s.db ∧ p.active_profile = true ∧ k = p.username) := by
  constructor
  · cases hg : dbGet (fun p => p.active_profile) s.db with
    | doesNotExist => exact absurd (filter_of_dbGet_none hg) hne
    | found q => simp [listProfiles, hg, profilesDict_eq_map _ hnd]
    | multipleObjectsReturned => simp [listProfiles, hg, profilesDict_eq_map _ hnd]
  · intro k p
    constructor
    · intro hmem
      rcases List.mem_map.mp hmem with ⟨q, hq, hEq⟩
      rcases List.mem_filter.mp hq with ⟨hqdb, hqact⟩
      cases hEq
      exact ⟨hqdb, by simpa using hqact, rfl⟩
    · rintro ⟨hdb, hact, hk⟩
      subst hk
      exact List.mem_map_of_mem _ (List.mem_filter.mpr ⟨hdb, by simp [hact]⟩)

/-- C6 witness: the mapping at a concrete system with one active and no
inactive profile. -/
theorem c6_witness :
    listProfiles sysActive
      = (.ok HTTP_200_OK (.profilesMap [("james", activeJames)]), sysActive) := by
  rw [(c6_list_keyed_by_username sysActive (by decide) (by decide)).1]
  decide

/-! ### Claim C10 -/

/-- C10: when no stored profile has active_profile=True, including when
only inactive profiles exist, listing answers the 404 APIException with
the no-profiles message instead of an empty 200 mapping. -/
theorem c10_list_empty_404 (s : Sys)
    (h : s.db.filter (fun p => p.active_profile) = []) :
    listProfiles s
      = (.err HTTP_404_NOT_FOUND noProfilesMsg,
         { s with statusCode := HTTP_404_NOT_FOUND }) := by
  simp [listProfiles, dbGet_none_of_filter h]

/-- C10 witness: the concrete system holding exactly one profile, which
is inactive, is answered 404. -/
theorem c10_witness :
    listProfiles sysInactive
      = (.err HTTP_404_NOT_FOUND noProfilesMsg,
         { sysInactive with statusCode := HTTP_404_NOT_FOUND }) :=
  c10_list_empty_404 sysInactive (by decide)

end Profiles

namespace Profiles

/-! ### Claim C7 -/

/-- C7: without credentials every mutation endpoint (create, edit,
deactivate, activate) and the current-user endpoint answer 403 with the
authentication-required message, and the system state, profile table
included, is returned unchanged. -/
theorem c7_unauthenticated_403 (s : Sys) (uname url bio : String) (ap aOk : Bool) :
    createProfile none uname aOk s = (.err HTTP_403_FORBIDDEN authRequiredMsg, s)
    ∧ editProfile none url ap aOk bio s = (.err HTTP_403_FORBIDDEN authRequiredMsg, s)
    ∧ deactivateProfile none url s = (.err HTTP_403_FORBIDDEN authRequiredMsg, s)
    ∧ activateProfile none url s = (.err HTTP_403_FORBIDDEN authRequiredMsg, s)
    ∧ retrieveCurrentUser none s = (.err HTTP_403_FORBIDDEN authRequiredMsg, s) :=
  ⟨rfl, rfl, rfl, rfl, rfl⟩

/-! ### Claim C8 -/

/-- C8: the edit, deactivate and activate handlers resolve their target
from the authenticated requester only: the username_id URL segment is
never read, so two requests differing only in that segment are
answered identically, and any profile a successful call returns (and
mutates) belongs to the requester. -/
theorem c8_mutations_target_requester (s : Sys) (uid : Int)
    (url1 url2 : String) (ap aOk : Bool) (bio : String) :
    editProfile (some uid) url1 ap aOk bio s = editProfile (some uid) url2 ap aOk bio s
    ∧ deactivateProfile (some uid) url1 s = deactivateProfile (some uid) url2 s
    ∧ activateProfile (some uid) url1 s = activateProfile (some uid) url2 s
    ∧ (∀ (st : Nat) (p : UserProfile) (s2 : Sys),
        editProfile (some uid) url1 ap aOk bio s = (.ok st (.profile p), s2) →
        p.username_id = uid)
    ∧ (∀ (st : Nat) (p : UserProfile) (s2 : Sys),
        deactivateProfile (some uid) url1 s = (.ok st (.profile p), s2) →
        p.username_id = uid)
    ∧ (∀ (st : Nat) (p : UserProfile) (s2 : Sys),
        activateProfile (some uid) url1 s = (.ok st (.profile p), s2) →
        p.username_id = uid) := by
  refine ⟨rfl, rfl, rfl, ?_, ?_, ?_⟩
  · intro st p s2 h
    by_cases hav : (ap && !aOk) = true
    · simp [editProfile, hav] at h
    · rw [Bool.not_eq_true] at hav
      cases hg : dbGet (fun q => q.username_id == uid) s.db with
      | doesNotExist => simp [editProfile, hav, hg] at h
      | multipleObjectsReturned => simp [editProfile, hav, hg] at h
      | found q =>
        have hq := username_id_eq_of_filter_single (filter_of_dbGet_found hg)
        have hval : editProfile (some uid) url1 ap aOk bio s
            = (.ok HTTP_200_OK (.profile { q with bio := bio }),
               { s with db := s.db.map (fun r => if r.username_id == uid
                    then { q with bio := bio } else r) }) := by
          simp [editProfile, hav, hg]
        rw [hval, Prod.mk.injEq] at h
        have hb := h.1
        injection hb with hst hbody
        injection hbody with hp
        rw [← hp]
        simpa using hq
  · intro st p s2 h
    cases hg : dbGet (fun q => q.username_id == uid) s.db with
    | doesNotExist => simp [deactivateProfile, hg] at h
    | multipleObjectsReturned => simp [deactivateProfile, hg] at h
    | found q =>
      cases hg2 : dbGet (fun r => r.username_id == uid && !r.active_profile) s.db with
      | found r => simp [deactivateProfile, hg, hg2] at h
      | multipleObjectsReturned => simp [deactivateProfile, hg, hg2] at h
      | doesNotExist =>
        have hq := username_id_eq_of_filter_single (filter_of_dbGet_found hg)
        have hval : deactivateProfile (some uid) url1 s
            = (.ok HTTP_200_OK (.profile { q with active_profile := false }),
               { s with db := s.db.map (fun r => if r.username_id == uid
                    then { q with active_profile := false } else r) }) := by
          simp [deactivateProfile, hg, hg2]
        rw [hval, Prod.mk.injEq] at h
        have hb := h.1
        injection hb with hst hbody
        injection hbody with hp
        rw [← hp]
        simpa using hq
  · intro st p s2 h
    cases hg : dbGet (fun q => q.username_id == uid) s.db with
    | doesNotExist => simp [activateProfile, hg] at h
    | multipleObjectsReturned => simp [activateProfile, hg] at h
    | found q =>
      cases hg2 : dbGet (fun r => r.username_id == uid && r.active_profile) s.db with
      | found r => simp [activateProfile, hg, hg2] at h
      | multipleObjectsReturned => simp [activateProfile, hg, hg2] at h
      | doesNotExist =>
        have hq := username_id_eq_of_filter_single (filter_of_dbGet_found hg)
        have hval : activateProfile (some uid) url1 s
            = (.ok HTTP_200_OK (.profile { q with active_profile := true }),
               { s with db := s.db.map (fun r => if r.username_id == uid
                    then { q with active_profile := true } else r) }) := by
          simp [activateProfile, hg, hg2]
        rw [hval, Prod.mk.injEq] at h
        have hb := h.1
        injection hb with hst hbody
        injection hbody with hp
        rw [← hp]
        simpa using hq

/-- C8 witness: two deactivation requests by user 2 that differ only in
the URL segment coincide, and the profile a successful call returns
belongs to user 2. -/
theorem c8_witness :
    deactivateProfile (some 2) "17" sysActive = deactivateProfile (some 2) "999" sysActive
    ∧ ({ activeJames with active_profile := false } : UserProfile).username_id = 2 := by
  have h := c8_mutations_target_requester sysActive 2 "17" "999" false true "b"
  refine ⟨h.2.1, ?_⟩
  exact h.2.2.2.2.1 HTTP_200_OK { activeJames with active_profile := false }
      { sysActive with db := [{ activeJames with active_profile := false }] } (by decide)

end Profiles
